import Mathlib

-- Shallow embedding of the sonobuoy image-synchronization subsystem:
-- pkg/image (SaveToTar, PullImage, DeleteImage, GetImages, TagImage, PushImage)
-- and cmd/sonobuoy/app/images.go (listImages, pullImages, pushImages,
-- deleteImages) together with cmd/sonobuoy/app/args.go (GetE2EConfig).
-- Engine calls, the filesystem and the cluster are modelled as explicit
-- oracles; each modelled function returns its result together with the list
-- of observable events it emitted, so that batch behaviour (ordering,
-- continue-on-error, which engine calls are issued) is provable.

set_option maxRecDepth 4000

namespace Sonobuoy

-- A chunk of an engine response stream: either payload bytes or an
-- engine-side error event delivered in the middle of the stream. A stream
-- is a finite list of chunks; end of list is end-of-stream (EOF).
inductive Chunk where
  | data (bytes : List Nat)
  | fail (msg : String)
deriving DecidableEq

-- Reading a stream to completion, as both ioutil.ReadAll and
-- jsonmessage.DisplayJSONMessagesStream (streamDockerMessages) do: consume
-- chunks until EOF or until an engine error chunk is hit, in which case the
-- error is returned and the remainder of the stream is left unconsumed.
def drainStream : List Chunk → Except String Unit × List Chunk
  | [] => (Except.ok (), [])
  | Chunk.data _ :: rest => drainStream rest
  | Chunk.fail m :: rest => (Except.error m, rest)

-- io.Copy from the engine stream into a destination file. The file can
-- absorb at most cap bytes in total; a data chunk that would exceed cap
-- fails the write, and io.Copy then returns the write error at once,
-- leaving the rest of the stream unconsumed. A fail chunk is a read error
-- and is likewise returned at once. Returns the bytes written so far, the
-- outcome, and the unconsumed remainder of the stream.
def copyLoop (cap : Nat) (acc : List Nat) : List Chunk → List Nat × Except String Unit × List Chunk
  | [] => (acc, Except.ok (), [])
  | Chunk.data bs :: rest =>
      if acc.length + bs.length ≤ cap then copyLoop cap (acc ++ bs) rest
      else (acc, Except.error "short write", rest)
  | Chunk.fail m :: rest => (acc, Except.error m, rest)

def isErr {ε α : Type} : Except ε α → Bool
  | Except.error _ => true
  | Except.ok _ => false

-- A byte-level file system: path to file contents. os.Create truncates an
-- existing file or creates an empty new one.
def setFileBytes (fs : List (String × List Nat)) (p : String) (c : List Nat) : List (String × List Nat) :=
  (p, c) :: fs.filter (fun kv => kv.1 ≠ p)

/-- Modelled from the spec: the image Config entry type of pkg/image, whose
definition is not under src/. Per the spec an entry carries a registry
host, a repository path and a tag, and its full reference (GetE2EImage) is
registry/name:tag. The Go zero value has all fields empty. -/
structure Config where
  registry : String
  name : String
  tag : String
deriving DecidableEq

def Config.GetE2EImage (c : Config) : String :=
  c.registry ++ "/" ++ c.name ++ ":" ++ c.tag

def zeroConfig : Config := { registry := "", name := "", tag := "" }

-- Go map indexing: a read of a missing key yields the zero value.
def goMapGet (m : List (String × Config)) (k : String) : Config :=
  match m.lookup k with
  | some v => v
  | none => zeroConfig

-- Base64 with the URL-safe alphabet and padding, as base64.URLEncoding of
-- the Go standard library, used by PushImage for the registry auth header.
def b64Alphabet : List Char :=
  "ABCDEFGHIJKLMNOPQRSTUVWXYZabcdefghijklmnopqrstuvwxyz0123456789-_".toList

def sextetChar (n : Nat) : Char := b64Alphabet.getD n 'A'

def sextetVal (c : Char) : Nat := b64Alphabet.indexOf c

def base64UrlEncode : List Nat → List Char
  | [] => []
  | [a] => [sextetChar (a / 4), sextetChar (a % 4 * 16), '=', '=']
  | [a, b] => [sextetChar (a / 4), sextetChar (a % 4 * 16 + b / 16), sextetChar (b % 16 * 4), '=']
  | a :: b :: c :: rest =>
      sextetChar (a / 4) :: sextetChar (a % 4 * 16 + b / 16) ::
      sextetChar (b % 16 * 4 + c / 64) :: sextetChar (c % 64) :: base64UrlEncode rest

def base64UrlDecode : List Char → Option (List Nat)
  | [] => some []
  | c1 :: c2 :: c3 :: c4 :: rest =>
      if c3 = '=' then
        if c4 = '=' ∧ rest = [] then some [sextetVal c1 * 4 + sextetVal c2 / 16] else none
      else if c4 = '=' then
        if rest = [] then
          some [sextetVal c1 * 4 + sextetVal c2 / 16, sextetVal c2 % 16 * 16 + sextetVal c3 / 4]
        else none
      else
        match base64UrlDecode rest with
        | some bs =>
            some ((sextetVal c1 * 4 + sextetVal c2 / 16) ::
                  (sextetVal c2 % 16 * 16 + sextetVal c3 / 4) ::
                  (sextetVal c3 % 4 * 64 + sextetVal c4) :: bs)
        | none => none
  | _ => none

theorem sextetVal_sextetChar : ∀ n, n < 64 → sextetVal (sextetChar n) = n := by decide

theorem sextetChar_ne_pad : ∀ n, n < 64 → sextetChar n ≠ '=' := by decide

theorem base64_roundtrip_aux :
    ∀ (n : Nat) (bs : List Nat), bs.length ≤ n → (∀ b ∈ bs, b < 256) →
      base64UrlDecode (base64UrlEncode bs) = some bs := by
  intro n
  induction n with
  | zero =>
      intro bs hlen _
      have : bs = [] := List.eq_nil_of_length_eq_zero (Nat.le_zero.mp hlen)
      subst this
      simp [base64UrlEncode, base64UrlDecode]
  | succ n ih =>
      intro bs hlen hb
      rcases bs with _ | ⟨a, _ | ⟨b, _ | ⟨c, rest⟩⟩⟩
      · simp [base64UrlEncode, base64UrlDecode]
      · have ha : a < 256 := hb a (by simp)
        have h1 : a / 4 < 64 := by omega
        have h2 : a % 4 * 16 < 64 := by omega
        simp [base64UrlEncode, base64UrlDecode,
          sextetVal_sextetChar _ h1, sextetVal_sextetChar _ h2]
        omega
      · have ha : a < 256 := hb a (by simp)
        have hbb : b < 256 := hb b (by simp)
        have h1 : a / 4 < 64 := by omega
        have h2 : a % 4 * 16 + b / 16 < 64 := by omega
        have h3 : b % 16 * 4 < 64 := by omega
        simp [base64UrlEncode, base64UrlDecode, sextetChar_ne_pad _ h3,
          sextetVal_sextetChar _ h1, sextetVal_sextetChar _ h2, sextetVal_sextetChar _ h3]
        omega
      · have ha : a < 256 := hb a (by simp)
        have hbb : b < 256 := hb b (by simp)
        have hc : c < 256 := hb c (by simp)
        have h1 : a / 4 < 64 := by omega
        have h2 : a % 4 * 16 + b / 16 < 64 := by omega
        have h3 : b % 16 * 4 + c / 64 < 64 := by omega
        have h4 : c % 64 < 64 := by omega
        have hlen2 : rest.length ≤ n := by
          simp only [List.length_cons] at hlen
          omega
        have hrest : base64UrlDecode (base64UrlEncode rest) = some rest := by
          apply ih _ hlen2
          intro x hx
          exact hb x (by simp [hx])
        simp [base64UrlEncode, base64UrlDecode, sextetChar_ne_pad _ h3,
          sextetChar_ne_pad _ h4, hrest, sextetVal_sextetChar _ h1,
          sextetVal_sextetChar _ h2, sextetVal_sextetChar _ h3, sextetVal_sextetChar _ h4]
        omega

theorem base64_roundtrip (bs : List Nat) (hb : ∀ b ∈ bs, b < 256) :
    base64UrlDecode (base64UrlEncode bs) = some bs :=
  base64_roundtrip_aux bs.length bs (Nat.le_refl _) hb

theorem char_toNat_lt (c : Char) : c.toNat < 1114112 := by
  rcases c.valid with h | h
  · exact Nat.lt_trans h (by norm_num)
  · exact h.2

-- UTF-8 encoding of one character, byte values as natural numbers.
def utf8Encode (c : Char) : List Nat :=
  if c.toNat < 128 then [c.toNat]
  else if c.toNat < 2048 then [192 + c.toNat / 64, 128 + c.toNat % 64]
  else if c.toNat < 65536 then [224 + c.toNat / 4096, 128 + c.toNat / 64 % 64, 128 + c.toNat % 64]
  else [240 + c.toNat / 262144, 128 + c.toNat / 4096 % 64, 128 + c.toNat / 64 % 64, 128 + c.toNat % 64]

theorem utf8Encode_lt (c : Char) : ∀ b ∈ utf8Encode c, b < 256 := by
  have h := char_toNat_lt c
  intro b hb
  unfold utf8Encode at hb
  split_ifs at hb <;> simp at hb <;> omega

def strBytes (s : String) : List Nat := s.data.flatMap utf8Encode

theorem strBytes_lt (s : String) : ∀ b ∈ strBytes s, b < 256 := by
  intro b hb
  simp only [strBytes, List.mem_flatMap] at hb
  obtain ⟨c, _, hc⟩ := hb
  exact utf8Encode_lt c b hc

def hexDigitChar (n : Nat) : Char := "0123456789abcdef".toList.getD n '0'

-- The string escaping of the Go encoding/json package with its default
-- HTML escaping: quote, backslash, newline, carriage return, tab, the
-- HTML-significant characters, and the remaining control characters.
def jsonEscapeChar (c : Char) : String :=
  if c = '"' then "\\\""
  else if c = '\\' then "\\\\"
  else if c = '\n' then "\\n"
  else if c = '\r' then "\\r"
  else if c = '\t' then "\\t"
  else if c = '<' then "\\u003c"
  else if c = '>' then "\\u003e"
  else if c = '&' then "\\u0026"
  else if c.toNat < 32 then
    "\\u00" ++ String.singleton (hexDigitChar (c.toNat / 16)) ++ String.singleton (hexDigitChar (c.toNat % 16))
  else String.singleton c

def jsonQuote (s : String) : String :=
  "\"" ++ String.join (s.data.map jsonEscapeChar) ++ "\""

-- The docker types.AuthConfig structure as populated by pushImages: only
-- the username and password fields are set. All its fields carry omitempty
-- JSON tags, so json.Marshal drops empty fields and serializes the rest in
-- declaration order: username first, then password.
structure AuthConfig where
  username : String
  password : String

def jsonMarshalAuth (a : AuthConfig) : String :=
  let fields :=
    (if a.username = "" then [] else ["\"username\":" ++ jsonQuote a.username]) ++
    (if a.password = "" then [] else ["\"password\":" ++ jsonQuote a.password])
  "\x7b" ++ String.intercalate "," fields ++ "\x7d"

-- The registry auth header value computed by PushImage:
-- base64.URLEncoding.EncodeToString(json.Marshal(auth)).
def pushAuthHeader (a : AuthConfig) : String :=
  String.mk (base64UrlEncode (strBytes (jsonMarshalAuth a)))

-- Cross-check of the model against a known authentic vector: the base64url
-- encoding of the JSON document for username user and password pass.
theorem pushAuthHeader_vector :
    pushAuthHeader { username := "user", password := "pass" } =
      "eyJ1c2VybmFtZSI6InVzZXIiLCJwYXNzd29yZCI6InBhc3MifQ==" := by decide

-- Environment of one SaveToTar invocation: the file system, whether
-- os.Create succeeds, the engine ImageSave call, and the write capacity of
-- the created file (how many bytes the disk accepts before a write error).
structure SaveEnv where
  fsFiles : List (String × List Nat)
  createOk : Bool
  imageSave : List String → Except String (List Chunk)
  diskCapacity : Nat

structure SaveOutcome where
  result : Except String Unit
  fsFiles : List (String × List Nat)
  streamRemaining : Option (List Chunk)

-- SaveToTar (pkg/image): os.Create the destination, request the combined
-- engine export, io.Copy the stream into the file, and only then
-- ioutil.ReadAll the stream. streamRemaining is the unconsumed suffix of
-- the export stream (none when the export stream was never obtained).
def SaveToTar (env : SaveEnv) (images : List String) (filepath : String) : SaveOutcome :=
  if env.createOk = false then
    { result := Except.error ("Could not create tarball file " ++ filepath)
      fsFiles := env.fsFiles
      streamRemaining := none }
  else
    let fs1 := setFileBytes env.fsFiles filepath []
    match env.imageSave images with
    | Except.error e =>
        { result := Except.error ("error saving images to tar: " ++ e)
          fsFiles := fs1
          streamRemaining := none }
    | Except.ok out =>
        match copyLoop env.diskCapacity [] out with
        | (written, Except.error e, rest) =>
            { result := Except.error ("Could not copy the file " ++ filepath ++ " data to the tarball: " ++ e)
              fsFiles := setFileBytes fs1 filepath written
              streamRemaining := some rest }
        | (written, Except.ok _, rest) =>
            let fs2 := setFileBytes fs1 filepath written
            match drainStream rest with
            | (Except.error e, rest2) =>
                { result := Except.error ("error exporting images: " ++ e)
                  fsFiles := fs2
                  streamRemaining := some rest2 }
            | (Except.ok _, rest2) =>
                { result := Except.ok ()
                  fsFiles := fs2
                  streamRemaining := some rest2 }

-- Observable events of the commands in cmd/sonobuoy/app/images.go and of
-- the pkg/image helpers they call.
inductive Event where
  | statCheck (path : String)
  | logError (msg : String)
  | readFile (path : String)
  | buildRegistry (overridePath version : String)
  | printLine (s : String)
  | dockerInit
  | enginePull (ref : String)
  | engineTag (srcRef destRef : String)
  | enginePush (ref : String) (registryAuth : String)
  | engineDelete (ref : String)
deriving DecidableEq

-- An item of the engine response to an image removal, as the docker
-- ImageDeleteResponseItem.
structure DeleteItem where
  deleted : String
  untagged : String
deriving DecidableEq

-- The container engine client (docker), an external collaborator: each
-- operation is an oracle giving that call its outcome. Pull, push and save
-- return a response stream on success.
structure Engine where
  imagePull : String → Except String (List Chunk)
  imageTag : String → String → Option String
  imagePush : String → String → Except String (List Chunk)
  imageRemove : String → Except String (List DeleteItem)

-- PullImage (pkg/image): request the pull, stream the docker status
-- messages, then drain the rest of the response. Every branch performs
-- exactly one engine pull call.
def pullOutcome (eng : Engine) (ref : String) : Except String Unit :=
  match eng.imagePull ref with
  | Except.error e => Except.error ("error pulling image " ++ ref ++ ": " ++ e)
  | Except.ok out =>
      match drainStream out with
      | (Except.error e, _) => Except.error ("error pulling image " ++ ref ++ ": " ++ e)
      | (Except.ok _, rest) =>
          match drainStream rest with
          | (Except.error e, _) => Except.error ("error pulling image " ++ ref ++ ": " ++ e)
          | (Except.ok _, _) => Except.ok ()

def PullImage (eng : Engine) (img : Config) : Except String Unit × List Event :=
  (pullOutcome eng img.GetE2EImage, [Event.enginePull img.GetE2EImage])

-- TagImage (pkg/image): print the tagging line, then one engine tag call.
def tagOutcome (eng : Engine) (srcRef destRef : String) : Except String Unit :=
  match eng.imageTag srcRef destRef with
  | some e => Except.error ("error tagging image " ++ destRef ++ ": " ++ e)
  | none => Except.ok ()

def TagImage (eng : Engine) (srcimg destimg : Config) : Except String Unit × List Event :=
  (tagOutcome eng srcimg.GetE2EImage destimg.GetE2EImage,
   [Event.printLine ("Tagging image: " ++ srcimg.GetE2EImage ++ " to " ++ destimg.GetE2EImage),
    Event.engineTag srcimg.GetE2EImage destimg.GetE2EImage])

-- PushImage (pkg/image): marshal the credentials to JSON, base64url-encode
-- them into the RegistryAuth header, request the push with that header,
-- stream the docker status messages, then drain the rest of the response.
-- Every branch performs exactly one engine push call carrying the header.
def pushOutcome (eng : Engine) (ref : String) (registryAuth : String) : Except String Unit :=
  match eng.imagePush ref registryAuth with
  | Except.error e => Except.error ("error pushing image " ++ ref ++ ": " ++ e)
  | Except.ok out =>
      match drainStream out with
      | (Except.error e, _) => Except.error ("error uploading image " ++ ref ++ ": " ++ e)
      | (Except.ok _, rest) =>
          match drainStream rest with
          | (Except.error e, _) => Except.error ("error uploading image " ++ ref ++ ": " ++ e)
          | (Except.ok _, _) => Except.ok ()

def PushImage (eng : Engine) (img : Config) (auth : AuthConfig) : Except String Unit × List Event :=
  (pushOutcome eng img.GetE2EImage (pushAuthHeader auth),
   [Event.enginePush img.GetE2EImage (pushAuthHeader auth)])

-- DeleteImage (pkg/image): one engine removal call; on success the engine
-- reports which tags were deleted or untagged.
def DeleteImage (eng : Engine) (img : Config) : Except String (List DeleteItem) × List Event :=
  (match eng.imageRemove img.GetE2EImage with
   | Except.error e => Except.error ("error deleting image " ++ img.GetE2EImage ++ ": " ++ e)
   | Except.ok items => Except.ok items,
   [Event.engineDelete img.GetE2EImage])

-- One iteration of the pull loop of pullImages (images.go lines 203-209):
-- pull, log a failure without aborting, print the separator.
def pullImagesStep (eng : Engine) (v : Config) : List Event :=
  (PullImage eng v).2 ++
  (match (PullImage eng v).1 with
   | Except.error _ => [Event.logError ("couldn't pull image: " ++ v.GetE2EImage)]
   | Except.ok _ => []) ++
  [Event.printLine "########"]

-- The pull loop itself: a plain sequential fold over the iteration order
-- delivered by the Go map range.
def pullImagesLoop (eng : Engine) : List (String × Config) → List Event
  | [] => []
  | kv :: rest => pullImagesStep eng kv.2 ++ pullImagesLoop eng rest

-- One iteration of the tag-and-push loop of pushImages (images.go lines
-- 339-350): tag the private reference from the upstream one, log a tag
-- failure, then push the private reference unconditionally, log a push
-- failure, print the separator. The private image is read with Go map
-- indexing, so a logical name missing from the private set yields the zero
-- Config.
def pushImagesStep (eng : Engine) (auth : AuthConfig) (privateImages : List (String × Config))
    (kv : String × Config) : List Event :=
  (TagImage eng kv.2 (goMapGet privateImages kv.1)).2 ++
  (match (TagImage eng kv.2 (goMapGet privateImages kv.1)).1 with
   | Except.error _ => [Event.logError ("couldn't tag image: " ++ kv.2.GetE2EImage)]
   | Except.ok _ => []) ++
  (PushImage eng (goMapGet privateImages kv.1) auth).2 ++
  (match (PushImage eng (goMapGet privateImages kv.1) auth).1 with
   | Except.error _ => [Event.logError ("couldn't push image: " ++ kv.2.GetE2EImage)]
   | Except.ok _ => []) ++
  [Event.printLine "########"]

def pushImagesLoop (eng : Engine) (auth : AuthConfig) (privateImages : List (String × Config)) :
    List (String × Config) → List Event
  | [] => []
  | kv :: rest => pushImagesStep eng auth privateImages kv ++ pushImagesLoop eng auth privateImages rest

-- One iteration of the delete loop of deleteImages (images.go lines
-- 393-407): delete, log a failure, print the per-item results, separator.
def deleteItemLines (items : List DeleteItem) : List Event :=
  items.flatMap (fun r =>
    Event.printLine ("Deleted: " ++ r.deleted) ::
    (if 0 < r.untagged.length then [Event.printLine ("Untagged: " ++ r.untagged)] else []))

def deleteImagesStep (eng : Engine) (v : Config) : List Event :=
  (DeleteImage eng v).2 ++
  (match (DeleteImage eng v).1 with
   | Except.error _ => [Event.logError ("couldn't delete image: " ++ v.GetE2EImage)]
   | Except.ok items => deleteItemLines items) ++
  [Event.printLine "########"]

def deleteImagesLoop (eng : Engine) : List (String × Config) → List Event
  | [] => []
  | kv :: rest => deleteImagesStep eng kv.2 ++ deleteImagesLoop eng rest

-- Event classification helpers.
def isEngineOp : Event → Bool
  | Event.dockerInit => true
  | Event.enginePull _ => true
  | Event.engineTag _ _ => true
  | Event.enginePush _ _ => true
  | Event.engineDelete _ => true
  | _ => false

def isPullEvent : Event → Bool
  | Event.enginePull _ => true
  | _ => false

def isTagEvent : Event → Bool
  | Event.engineTag _ _ => true
  | _ => false

def isPushEvent : Event → Bool
  | Event.enginePush _ _ => true
  | _ => false

def isLogError : Event → Bool
  | Event.logError _ => true
  | _ => false

def isReadFile : Event → Bool
  | Event.readFile _ => true
  | _ => false

def printedLine : Event → Option String
  | Event.printLine s => some s
  | _ => none

def printedLines (tr : List Event) : List String := tr.filterMap printedLine

-- The outcome of one cobra command run: whether it called os.Exit(1), and
-- the events it emitted up to that point.
structure CmdOut where
  exitedWithError : Bool
  trace : List Event

-- The external world of one command invocation: file system (path to text
-- contents), the built-in registry defaults, the yaml parser, cluster and
-- docker client oracles, password sources, and the iteration order the Go
-- runtime chooses when ranging over a map (an arbitrary reordering).
structure World where
  engine : Engine
  fs : List (String × String)
  defaults : List (String × Config)
  yamlParse : String → Option (List (String × String))
  kubeconfigGet : Except String Unit
  sonobuoyClient : Except String Unit
  clusterVersion : Except String String
  dockerInit : Except String Unit
  envPassword : String
  readPassword : Except String String
  rangeOrder : List (String × Config) → List (String × Config)

/-- Modelled from the spec: NewRegistryList and GetImageConfigs of
pkg/image (RegistryList), whose sources are not under src/. Per the spec,
loading builds the built-in defaults table with every tag derived from the
version; when the override path is non-empty it reads the file, failing
with a file-not-found error when the path is set but unreadable, parses the
contents as a flat string-to-string mapping, failing with a parse error
otherwise, and replaces the registry of exactly the entries named in the
override. GetImageConfigs then yields the resolved set unchanged. -/
def NewRegistryList (w : World) (overridePath version : String) :
    Except String (List (String × Config)) × List Event :=
  let base := w.defaults.map (fun kv => (kv.1, { kv.2 with tag := version }))
  if overridePath = "" then (Except.ok base, [Event.buildRegistry overridePath version])
  else
    match w.fs.lookup overridePath with
    | none => (Except.error "override file not found",
               [Event.buildRegistry overridePath version])
    | some contents =>
        match w.yamlParse contents with
        | none => (Except.error "override file parse error",
                   [Event.buildRegistry overridePath version, Event.readFile overridePath])
        | some ov =>
            (Except.ok (base.map (fun kv =>
               match ov.lookup kv.1 with
               | some r => (kv.1, { kv.2 with registry := r })
               | none => kv)),
             [Event.buildRegistry overridePath version, Event.readFile overridePath])

-- GetImages (pkg/image): init the registry list for the version and return
-- its image configs, wrapping a resolution failure.
def GetImages (w : World) (e2eRegistryConfig version : String) :
    Except String (List (String × Config)) × List Event :=
  match NewRegistryList w e2eRegistryConfig version with
  | (Except.error e, ev) => (Except.error ("couldn't init Registry List: " ++ e), ev)
  | (Except.ok reg, ev) => (Except.ok reg, ev)

-- Flag state of the images command family (imagesFlags; the password flag
-- is resolved inside pushImages and is threaded explicitly below).
structure ImagesFlags where
  e2eRegistryConfig : String
  plugin : String
  username : String

-- listImages (images.go lines 115-166), after the optional existence check
-- of the override file. Note the source passes the empty string, not the
-- flag value, to NewRegistryList.
def listImagesBody (w : World) (fl : ImagesFlags) (pre : List Event) : CmdOut :=
  if fl.plugin = "e2e" then
    match w.kubeconfigGet with
    | Except.error e =>
        { exitedWithError := true, trace := pre ++ [Event.logError ("couldn't get REST client: " ++ e)] }
    | Except.ok _ =>
    match w.sonobuoyClient with
    | Except.error e =>
        { exitedWithError := true, trace := pre ++ [Event.logError ("could not create sonobuoy client: " ++ e)] }
    | Except.ok _ =>
    match w.clusterVersion with
    | Except.error e =>
        { exitedWithError := true, trace := pre ++ [Event.logError ("couldn't get Sonobuoy client: " ++ e)] }
    | Except.ok version =>
    match NewRegistryList w "" version with
    | (Except.error e, ev) =>
        { exitedWithError := true, trace := pre ++ ev ++ [Event.logError ("couldn't init Registry List: " ++ e)] }
    | (Except.ok images, ev) =>
        { exitedWithError := false,
          trace := pre ++ ev ++ (w.rangeOrder images).map (fun kv => Event.printLine kv.2.GetE2EImage) }
  else
    { exitedWithError := true, trace := pre ++ [Event.logError ("Unsupported plugin: " ++ fl.plugin)] }

def listImages (w : World) (fl : ImagesFlags) : CmdOut :=
  if 0 < fl.e2eRegistryConfig.length then
    if (w.fs.lookup fl.e2eRegistryConfig).isNone then
      { exitedWithError := true,
        trace := [Event.statCheck fl.e2eRegistryConfig,
                  Event.logError ("file does not exist or cannot be opened: " ++ fl.e2eRegistryConfig)] }
    else listImagesBody w fl [Event.statCheck fl.e2eRegistryConfig]
  else listImagesBody w fl []

-- pullImages (images.go lines 168-214).
def pullImages (w : World) (fl : ImagesFlags) : CmdOut :=
  if fl.plugin = "e2e" then
    match w.kubeconfigGet with
    | Except.error e =>
        { exitedWithError := true, trace := [Event.logError ("couldn't get REST client: " ++ e)] }
    | Except.ok _ =>
    match w.sonobuoyClient with
    | Except.error e =>
        { exitedWithError := true, trace := [Event.logError ("could not create sonobuoy client: " ++ e)] }
    | Except.ok _ =>
    match w.clusterVersion with
    | Except.error e =>
        { exitedWithError := true, trace := [Event.logError ("couldn't get Sonobuoy client: " ++ e)] }
    | Except.ok version =>
    match GetImages w "" version with
    | (Except.error e, ev) =>
        { exitedWithError := true, trace := ev ++ [Event.logError ("couldn't init upstream registry list: " ++ e)] }
    | (Except.ok upstreamImages, ev) =>
    match w.dockerInit with
    | Except.error e =>
        { exitedWithError := true, trace := ev ++ [Event.logError ("couldn't init docker client: " ++ e)] }
    | Except.ok _ =>
        { exitedWithError := false,
          trace := ev ++ [Event.dockerInit] ++ pullImagesLoop w.engine (w.rangeOrder upstreamImages) }
  else
    { exitedWithError := true, trace := [Event.logError ("Unsupported plugin: " ++ fl.plugin)] }

-- pushImages (images.go lines 267-356), body after the existence check and
-- password resolution.
def pushImagesBody (w : World) (fl : ImagesFlags) (password : String) (pre : List Event) : CmdOut :=
  match w.kubeconfigGet with
  | Except.error e =>
      { exitedWithError := true, trace := pre ++ [Event.logError ("couldn't get REST client: " ++ e)] }
  | Except.ok _ =>
  match w.sonobuoyClient with
  | Except.error e =>
      { exitedWithError := true, trace := pre ++ [Event.logError ("could not create sonobuoy client: " ++ e)] }
  | Except.ok _ =>
  match w.clusterVersion with
  | Except.error e =>
      { exitedWithError := true, trace := pre ++ [Event.logError ("couldn't get Sonobuoy client: " ++ e)] }
  | Except.ok version =>
  match GetImages w "" version with
  | (Except.error e, ev1) =>
      { exitedWithError := true, trace := pre ++ ev1 ++ [Event.logError ("couldn't init upstream registry list: " ++ e)] }
  | (Except.ok upstreamImages, ev1) =>
  match GetImages w fl.e2eRegistryConfig version with
  | (Except.error e, ev2) =>
      { exitedWithError := true, trace := pre ++ ev1 ++ ev2 ++ [Event.logError ("couldn't init upstream registry list: " ++ e)] }
  | (Except.ok privateImages, ev2) =>
  match w.dockerInit with
  | Except.error e =>
      { exitedWithError := true, trace := pre ++ ev1 ++ ev2 ++ [Event.logError ("couldn't init docker client: " ++ e)] }
  | Except.ok _ =>
      { exitedWithError := false,
        trace := pre ++ ev1 ++ ev2 ++ [Event.dockerInit] ++
          pushImagesLoop w.engine { username := fl.username, password := password }
            privateImages (w.rangeOrder upstreamImages) }

def pushImages (w : World) (fl : ImagesFlags) : CmdOut :=
  if fl.plugin = "e2e" then
    if (w.fs.lookup fl.e2eRegistryConfig).isNone then
      { exitedWithError := true,
        trace := [Event.statCheck fl.e2eRegistryConfig,
                  Event.logError ("file does not exist or cannot be opened: " ++ fl.e2eRegistryConfig)] }
    else
      if 0 < fl.username.length then
        if w.envPassword.length = 0 then
          match w.readPassword with
          | Except.error e =>
              { exitedWithError := true,
                trace := [Event.statCheck fl.e2eRegistryConfig,
                          Event.logError ("couldn't get password from user: " ++ e)] }
          | Except.ok pw => pushImagesBody w fl pw [Event.statCheck fl.e2eRegistryConfig]
        else pushImagesBody w fl w.envPassword [Event.statCheck fl.e2eRegistryConfig]
      else pushImagesBody w fl "" [Event.statCheck fl.e2eRegistryConfig]
  else
    { exitedWithError := true, trace := [Event.logError ("Unsupported plugin: " ++ fl.plugin)] }

-- deleteImages (images.go lines 358-412). Unlike pushImages there is no
-- upfront existence check; the override path flows into GetImages.
def deleteImages (w : World) (fl : ImagesFlags) : CmdOut :=
  if fl.plugin = "e2e" then
    match w.kubeconfigGet with
    | Except.error e =>
        { exitedWithError := true, trace := [Event.logError ("couldn't get REST client: " ++ e)] }
    | Except.ok _ =>
    match w.sonobuoyClient with
    | Except.error e =>
        { exitedWithError := true, trace := [Event.logError ("could not create sonobuoy client: " ++ e)] }
    | Except.ok _ =>
    match w.clusterVersion with
    | Except.error e =>
        { exitedWithError := true, trace := [Event.logError ("couldn't get Sonobuoy client: " ++ e)] }
    | Except.ok version =>
    match GetImages w fl.e2eRegistryConfig version with
    | (Except.error e, ev) =>
        { exitedWithError := true, trace := ev ++ [Event.logError ("couldn't init upstream registry list: " ++ e)] }
    | (Except.ok upstreamImages, ev) =>
    match w.dockerInit with
    | Except.error e =>
        { exitedWithError := true, trace := ev ++ [Event.logError ("couldn't init docker client: " ++ e)] }
    | Except.ok _ =>
        { exitedWithError := false,
          trace := ev ++ [Event.dockerInit] ++ deleteImagesLoop w.engine (w.rangeOrder upstreamImages) }
  else
    { exitedWithError := true, trace := [Event.logError ("Unsupported plugin: " ++ fl.plugin)] }

-- The E2E run configuration of args.go.
structure E2EConfig where
  focus : String
  skip : String
  parallel : String
  customRegistries : String

-- Flag state seen by GetE2EConfig: whether each flag was changed and its
-- value. Reading a registered flag with GetString cannot fail, so those
-- error branches of the source are unreachable and elided.
structure E2EFlagSet where
  focusChanged : Bool
  focusVal : String
  skipChanged : Bool
  skipVal : String
  parallelChanged : Bool
  parallelVal : String
  registryChanged : Bool
  registryVal : String

-- GetE2EConfig (args.go lines 576-622): overlay the changed flags on the
-- mode defaults; when the registry list flag changed, read the file, parse
-- it purely as validation, and store the raw contents.
def GetE2EConfig (defaultCfg : E2EConfig) (fs : List (String × String))
    (yamlParse : String → Option (List (String × String))) (flags : E2EFlagSet) :
    Except String E2EConfig :=
  let cfg1 := if flags.focusChanged then { defaultCfg with focus := flags.focusVal } else defaultCfg
  let cfg2 := if flags.skipChanged then { cfg1 with skip := flags.skipVal } else cfg1
  let cfg3 := if flags.parallelChanged then { cfg2 with parallel := flags.parallelVal } else cfg2
  if flags.registryChanged then
    match fs.lookup flags.registryVal with
    | none => Except.error "couldn't read registry list"
    | some contents =>
        match yamlParse contents with
        | none => Except.error "failed to parse yaml registry list"
        | some _ => Except.ok { cfg3 with customRegistries := contents }
  else Except.ok cfg3

/-- Modelled from the spec: the run command that consumes GetE2EConfig is
not under src/. Per the spec a resolution error aborts the entire run
before any engine call, so engine events are emitted only after the E2E
configuration resolves successfully. -/
def runWithE2EConfig (defaultCfg : E2EConfig) (fs : List (String × String))
    (yamlParse : String → Option (List (String × String))) (flags : E2EFlagSet)
    (engineRun : E2EConfig → List Event) : Except String Unit × List Event :=
  match GetE2EConfig defaultCfg fs yamlParse flags with
  | Except.error e => (Except.error e, [])
  | Except.ok cfg => (Except.ok (), engineRun cfg)

-- Claim theorems.

-- A SaveToTar environment in which the destination file accepts no bytes,
-- so the copy fails on the first data chunk while a late engine error is
-- still waiting in the export stream.
def saveEnvC1 : SaveEnv :=
  { fsFiles := []
    createOk := true
    imageSave := fun _ => Except.ok [Chunk.data [1], Chunk.fail "late engine error"]
    diskCapacity := 0 }

/-- Claim C1 is false at this input: the copy of the export stream to the
destination fails on the first chunk and SaveToTar returns the copy error
at once; the remainder of the export stream, including the late engine
error event, is left unconsumed instead of being drained to end-of-stream,
and the late engine error is never surfaced. -/
theorem saveToTar_no_drain_after_copy_failure_cex :
    (SaveToTar saveEnvC1 ["img"] "out.tar").streamRemaining = some [Chunk.fail "late engine error"] ∧
    (SaveToTar saveEnvC1 ["img"] "out.tar").result =
      Except.error "Could not copy the file out.tar data to the tarball: short write" := by
  constructor <;> rfl

/-- Claim C1 (amended): when the copy of the export stream to the
destination file fails partway, SaveToTar returns the copy error
immediately; the remainder of the export stream is left exactly as the
failed copy left it rather than drained to end-of-stream, and no late
engine-side error is surfaced. The stream is drained only on the success
path of the copy. -/
theorem saveToTar_copy_failure_returns_immediately
    (env : SaveEnv) (images : List String) (filepath : String)
    (stream : List Chunk) (written : List Nat) (e : String) (rest : List Chunk)
    (hCreate : env.createOk = true)
    (hSave : env.imageSave images = Except.ok stream)
    (hCopy : copyLoop env.diskCapacity [] stream = (written, Except.error e, rest)) :
    (SaveToTar env images filepath).result =
      Except.error ("Could not copy the file " ++ filepath ++ " data to the tarball: " ++ e) ∧
    (SaveToTar env images filepath).streamRemaining = some rest := by
  unfold SaveToTar
  rw [hCreate]
  simp [hSave, hCopy]

/-- Witness for the amended claim C1 at a concrete input. -/
theorem saveToTar_copy_failure_returns_immediately_witness :
    (SaveToTar saveEnvC1 ["img"] "out.tar").result =
      Except.error ("Could not copy the file " ++ "out.tar" ++ " data to the tarball: " ++ "short write") ∧
    (SaveToTar saveEnvC1 ["img"] "out.tar").streamRemaining = some [Chunk.fail "late engine error"] :=
  saveToTar_copy_failure_returns_immediately saveEnvC1 ["img"] "out.tar"
    [Chunk.data [1], Chunk.fail "late engine error"] [] "short write"
    [Chunk.fail "late engine error"] rfl rfl rfl

/-- Claim C10: SaveToTar creates, truncating any existing file, the
destination path before requesting the engine export, so when the export
request itself fails the call returns an error while the destination file
has already been created with empty contents on disk. -/
theorem saveToTar_creates_before_export
    (env : SaveEnv) (images : List String) (filepath : String) (e : String)
    (hCreate : env.createOk = true)
    (hSave : env.imageSave images = Except.error e) :
    (SaveToTar env images filepath).result = Except.error ("error saving images to tar: " ++ e) ∧
    (SaveToTar env images filepath).fsFiles.lookup filepath = some [] := by
  unfold SaveToTar
  rw [hCreate]
  simp [hSave, setFileBytes, List.lookup]

-- A SaveToTar environment with a pre-existing destination file holding
-- bytes, in which the export request fails.
def saveEnvC10 : SaveEnv :=
  { fsFiles := [("out.tar", [7, 7])]
    createOk := true
    imageSave := fun _ => Except.error "export request failed"
    diskCapacity := 0 }

/-- Witness for claim C10 at a concrete input: the previously non-empty
destination file is truncated although the call fails. -/
theorem saveToTar_creates_before_export_witness :
    (SaveToTar saveEnvC10 ["img"] "out.tar").result =
      Except.error ("error saving images to tar: " ++ "export request failed") ∧
    (SaveToTar saveEnvC10 ["img"] "out.tar").fsFiles.lookup "out.tar" = some [] :=
  saveToTar_creates_before_export saveEnvC10 ["img"] "out.tar" "export request failed" rfl rfl

-- Helper lemmas about the batch loops.

theorem pushImagesStep_count_tag (eng : Engine) (auth : AuthConfig)
    (priv : List (String × Config)) (kv : String × Config) :
    (pushImagesStep eng auth priv kv).countP isTagEvent = 1 := by
  unfold pushImagesStep TagImage PushImage
  split <;> split <;>
    simp [isTagEvent, List.countP_append, List.countP_cons, List.countP_nil]

theorem pushImagesStep_count_push (eng : Engine) (auth : AuthConfig)
    (priv : List (String × Config)) (kv : String × Config) :
    (pushImagesStep eng auth priv kv).countP isPushEvent = 1 := by
  unfold pushImagesStep TagImage PushImage
  split <;> split <;>
    simp [isPushEvent, List.countP_append, List.countP_cons, List.countP_nil]

theorem tag_mem_pushImagesStep (eng : Engine) (auth : AuthConfig)
    (priv : List (String × Config)) (kv : String × Config) :
    Event.engineTag kv.2.GetE2EImage (goMapGet priv kv.1).GetE2EImage ∈
      pushImagesStep eng auth priv kv := by
  unfold pushImagesStep TagImage
  simp

theorem push_mem_pushImagesStep (eng : Engine) (auth : AuthConfig)
    (priv : List (String × Config)) (kv : String × Config) :
    Event.enginePush (goMapGet priv kv.1).GetE2EImage (pushAuthHeader auth) ∈
      pushImagesStep eng auth priv kv := by
  unfold pushImagesStep PushImage
  simp

theorem mem_pushImagesLoop_of_mem (eng : Engine) (auth : AuthConfig)
    (priv : List (String × Config)) {order : List (String × Config)}
    {kv : String × Config} (hkv : kv ∈ order) {e : Event}
    (he : e ∈ pushImagesStep eng auth priv kv) :
    e ∈ pushImagesLoop eng auth priv order := by
  induction order with
  | nil => cases hkv
  | cons hd tl ih =>
      rcases List.mem_cons.mp hkv with h | h
      · subst h
        exact List.mem_append.mpr (Or.inl he)
      · exact List.mem_append.mpr (Or.inr (ih h))

theorem pushImagesLoop_count_tag (eng : Engine) (auth : AuthConfig)
    (priv : List (String × Config)) (order : List (String × Config)) :
    (pushImagesLoop eng auth priv order).countP isTagEvent = order.length := by
  induction order with
  | nil => rfl
  | cons kv rest ih =>
      simp [pushImagesLoop, List.countP_append, pushImagesStep_count_tag, ih, Nat.add_comm]

theorem pushImagesLoop_count_push (eng : Engine) (auth : AuthConfig)
    (priv : List (String × Config)) (order : List (String × Config)) :
    (pushImagesLoop eng auth priv order).countP isPushEvent = order.length := by
  induction order with
  | nil => rfl
  | cons kv rest ih =>
      simp [pushImagesLoop, List.countP_append, pushImagesStep_count_push, ih, Nat.add_comm]

theorem pullImagesStep_count_pull (eng : Engine) (v : Config) :
    (pullImagesStep eng v).countP isPullEvent = 1 := by
  unfold pullImagesStep PullImage
  split <;> simp [isPullEvent, List.countP_append, List.countP_cons, List.countP_nil]

theorem pullImagesStep_count_logError (eng : Engine) (v : Config) :
    (pullImagesStep eng v).countP isLogError =
      (if isErr (pullOutcome eng v.GetE2EImage) then 1 else 0) := by
  unfold pullImagesStep PullImage
  rcases h : pullOutcome eng v.GetE2EImage with e | u <;>
    simp [h, isErr, isLogError, List.countP_append, List.countP_cons, List.countP_nil]

theorem pullImagesLoop_count_pull (eng : Engine) (order : List (String × Config)) :
    (pullImagesLoop eng order).countP isPullEvent = order.length := by
  induction order with
  | nil => rfl
  | cons kv rest ih =>
      simp [pullImagesLoop, List.countP_append, pullImagesStep_count_pull, ih, Nat.add_comm]

theorem pullImagesLoop_count_logError (eng : Engine) (order : List (String × Config)) :
    (pullImagesLoop eng order).countP isLogError =
      order.countP (fun kv => isErr (pullOutcome eng kv.2.GetE2EImage)) := by
  induction order with
  | nil => rfl
  | cons kv rest ih =>
      rcases h : pullOutcome eng kv.2.GetE2EImage with e | u <;>
        simp [pullImagesLoop, List.countP_append, List.countP_cons,
          pullImagesStep_count_logError, h, isErr, ih] <;> omega

theorem countP_not_eq {α : Type} (p : α → Bool) (l : List α) :
    l.countP (fun a => !(p a)) = l.length - l.countP p := by
  induction l with
  | nil => rfl
  | cons a t ih =>
      have hle := List.countP_le_length (p := p) (l := t)
      rcases h : p a <;> simp [List.countP_cons, h, ih] <;> omega

-- Engines and configs used by the concrete inputs below.
def engAllOk : Engine :=
  { imagePull := fun _ => Except.ok []
    imageTag := fun _ _ => none
    imagePush := fun _ _ => Except.ok []
    imageRemove := fun _ => Except.ok [] }

def engTagFails : Engine :=
  { imagePull := fun _ => Except.ok []
    imageTag := fun _ _ => some "denied"
    imagePush := fun _ _ => Except.ok []
    imageRemove := fun _ => Except.ok [] }

def engPullBFails : Engine :=
  { imagePull := fun r => if r = "r/b:v" then Except.error "network" else Except.ok []
    imageTag := fun _ _ => none
    imagePush := fun _ _ => Except.ok []
    imageRemove := fun _ => Except.ok [] }

def cfgU : Config := { registry := "up", name := "img", tag := "v1" }

def cfgP : Config := { registry := "priv", name := "img", tag := "v1" }

def cfgA : Config := { registry := "r", name := "a", tag := "v" }

def cfgB : Config := { registry := "r", name := "b", tag := "v" }

/-- Claim C2 is false at this input: the single image's tagging step fails,
yet its push step is still attempted: exactly one engine push call occurs
in the batch where the claim requires none. -/
theorem pushImagesLoop_push_after_tag_failure_cex :
    isErr (TagImage engTagFails cfgU cfgP).1 = true ∧
    (pushImagesLoop engTagFails { username := "u", password := "p" }
        [("img", cfgP)] [("img", cfgU)]).countP isPushEvent = 1 := by
  constructor <;> rfl

/-- Claim C2 (amended): in the tag-and-push batch every image of the
iteration order receives both a tag attempt and a push attempt, regardless
of whether its tagging failed; a tagging failure for one image aborts
nothing, and the batch continues with the remaining images. -/
theorem pushImagesLoop_attempts_tag_and_push_for_all (eng : Engine) (auth : AuthConfig)
    (priv : List (String × Config)) (order : List (String × Config)) :
    (pushImagesLoop eng auth priv order).countP isTagEvent = order.length ∧
    (pushImagesLoop eng auth priv order).countP isPushEvent = order.length :=
  ⟨pushImagesLoop_count_tag eng auth priv order, pushImagesLoop_count_push eng auth priv order⟩

/-- Claim C3 is false at this input: the logical name img is present in the
source set but absent from the destination set, yet the batch still issues
a tag for it, pointing the zero-value destination reference at the source
reference, and then a push of that zero-value reference. -/
theorem pushImagesLoop_missing_dest_cex :
    List.lookup "img" ([] : List (String × Config)) = none ∧
    Event.engineTag cfgU.GetE2EImage "/:" ∈
      pushImagesLoop engAllOk { username := "u", password := "p" } [] [("img", cfgU)] ∧
    (pushImagesLoop engAllOk { username := "u", password := "p" }
        [] [("img", cfgU)]).countP isPushEvent = 1 := by
  refine ⟨rfl, ?_, rfl⟩
  decide

/-- Claim C3 (amended): the tag-and-push batch iterates over every logical
name of the source set, not only those present in both sets; for each it
tags the destination reference, obtained by Go map indexing of the
destination set (the zero-value Config when the name is absent), from the
source reference and then pushes that destination reference with the
encoded credentials. -/
theorem pushImagesLoop_operates_on_source_names (eng : Engine) (auth : AuthConfig)
    (priv : List (String × Config)) (order : List (String × Config))
    (kv : String × Config) (hkv : kv ∈ order) :
    Event.engineTag kv.2.GetE2EImage (goMapGet priv kv.1).GetE2EImage ∈
      pushImagesLoop eng auth priv order ∧
    Event.enginePush (goMapGet priv kv.1).GetE2EImage (pushAuthHeader auth) ∈
      pushImagesLoop eng auth priv order :=
  ⟨mem_pushImagesLoop_of_mem eng auth priv hkv (tag_mem_pushImagesStep eng auth priv kv),
   mem_pushImagesLoop_of_mem eng auth priv hkv (push_mem_pushImagesStep eng auth priv kv)⟩

/-- Witness for the amended claim C3 at a concrete input. -/
theorem pushImagesLoop_operates_on_source_names_witness :
    Event.engineTag cfgU.GetE2EImage (goMapGet [("img", cfgP)] "img").GetE2EImage ∈
      pushImagesLoop engAllOk { username := "u", password := "p" } [("img", cfgP)] [("img", cfgU)] ∧
    Event.enginePush (goMapGet [("img", cfgP)] "img").GetE2EImage
        (pushAuthHeader { username := "u", password := "p" }) ∈
      pushImagesLoop engAllOk { username := "u", password := "p" } [("img", cfgP)] [("img", cfgU)] :=
  pushImagesLoop_operates_on_source_names engAllOk { username := "u", password := "p" }
    [("img", cfgP)] [("img", cfgU)] ("img", cfgU) (by simp)

/-- Claim C4 is false at this input: two runs of the pull batch over the
same resolved image set, differing only in the iteration order the Go
runtime chooses for the map range (which the Go specification leaves
unspecified and unstable across runs), pull the images in different
orders. -/
theorem pullImagesLoop_order_not_deterministic_cex :
    List.Perm [("a", cfgA), ("b", cfgB)] [("b", cfgB), ("a", cfgA)] ∧
    pullImagesLoop engAllOk [("a", cfgA), ("b", cfgB)] ≠
      pullImagesLoop engAllOk [("b", cfgB), ("a", cfgA)] := by
  constructor
  · exact List.Perm.swap ("b", cfgB) ("a", cfgA) []
  · decide

/-- Claim C4 (amended): the pull batch is sequential and, given the
iteration order the runtime yields for the set, deterministic: its event
trace is exactly the concatenation of the per-image pull traces in that
order, with no interleaving or parallel fan-out. The iteration order of a
Go map range is however not fixed, so two runs over the same resolved set
may pull the images in different orders. -/
theorem pullImagesLoop_sequential (eng : Engine) (order : List (String × Config)) :
    pullImagesLoop eng order = order.flatMap (fun kv => pullImagesStep eng kv.2) := by
  induction order with
  | nil => rfl
  | cons kv rest ih => simp [pullImagesLoop, ih]

/-- Claim C5: over an iteration order of N images in which exactly one
image's pull fails, the pull batch attempts all N pulls (one engine pull
call per image, no early abort), logs exactly one per-image failure, and
the remaining N-1 images complete as successes. -/
theorem pullImagesLoop_one_failure (eng : Engine) (order : List (String × Config))
    (h : order.countP (fun kv => isErr (pullOutcome eng kv.2.GetE2EImage)) = 1) :
    (pullImagesLoop eng order).countP isPullEvent = order.length ∧
    (pullImagesLoop eng order).countP isLogError = 1 ∧
    order.countP (fun kv => !(isErr (pullOutcome eng kv.2.GetE2EImage))) = order.length - 1 := by
  refine ⟨pullImagesLoop_count_pull eng order, ?_, ?_⟩
  · rw [pullImagesLoop_count_logError, h]
  · rw [countP_not_eq, h]

/-- Witness for claim C5 at a concrete input: two images, of which exactly
the second fails to pull. -/
theorem pullImagesLoop_one_failure_witness :
    [("a", cfgA), ("b", cfgB)].countP
        (fun kv => isErr (pullOutcome engPullBFails kv.2.GetE2EImage)) = 1 ∧
    ((pullImagesLoop engPullBFails [("a", cfgA), ("b", cfgB)]).countP isPullEvent =
        [("a", cfgA), ("b", cfgB)].length ∧
     (pullImagesLoop engPullBFails [("a", cfgA), ("b", cfgB)]).countP isLogError = 1 ∧
     [("a", cfgA), ("b", cfgB)].countP
        (fun kv => !(isErr (pullOutcome engPullBFails kv.2.GetE2EImage))) =
        [("a", cfgA), ("b", cfgB)].length - 1) :=
  ⟨by decide, pullImagesLoop_one_failure engPullBFails [("a", cfgA), ("b", cfgB)] (by decide)⟩

/-- Claim C8: for every username/password pair, PushImage sets the engine
registry-auth header value to exactly the base64 (URL-safe alphabet)
encoding of the JSON serialization of the structure containing that
username and password, and performs no other transformation of the
credentials: decoding the header recovers exactly the JSON bytes of the
credentials. -/
theorem pushImage_auth_header (eng : Engine) (img : Config) (u p : String) :
    (PushImage eng img { username := u, password := p }).2 =
      [Event.enginePush img.GetE2EImage
        (String.mk (base64UrlEncode (strBytes (jsonMarshalAuth { username := u, password := p }))))] ∧
    base64UrlDecode (base64UrlEncode (strBytes (jsonMarshalAuth { username := u, password := p }))) =
      some (strBytes (jsonMarshalAuth { username := u, password := p })) :=
  ⟨rfl, base64_roundtrip _ (strBytes_lt _)⟩

/-- Claim C6: when the override registry-list flag is set, the file is
readable, but its contents do not parse as a flat string-to-string
mapping, E2E configuration resolution fails with the parse error and the
run is aborted entirely before any engine call is issued: the run emits no
engine events at all. -/
theorem getE2EConfig_parse_failure_aborts (defaultCfg : E2EConfig)
    (fs : List (String × String)) (yamlParse : String → Option (List (String × String)))
    (flags : E2EFlagSet) (engineRun : E2EConfig → List Event) (contents : String)
    (hChanged : flags.registryChanged = true)
    (hRead : fs.lookup flags.registryVal = some contents)
    (hParse : yamlParse contents = none) :
    runWithE2EConfig defaultCfg fs yamlParse flags engineRun =
      (Except.error "failed to parse yaml registry list", []) := by
  unfold runWithE2EConfig GetE2EConfig
  rw [hChanged]
  simp [hRead, hParse]

def e2eDefault : E2EConfig :=
  { focus := "focus", skip := "", parallel := "1", customRegistries := "" }

/-- Witness for claim C6 at a concrete input: an override file whose
contents the yaml parser rejects. -/
theorem getE2EConfig_parse_failure_aborts_witness :
    runWithE2EConfig e2eDefault [("repo.yaml", "no flat mapping")] (fun _ => none)
      { focusChanged := false, focusVal := "", skipChanged := false, skipVal := "",
        parallelChanged := false, parallelVal := "", registryChanged := true,
        registryVal := "repo.yaml" } (fun _ => [Event.dockerInit]) =
      (Except.error "failed to parse yaml registry list", []) :=
  getE2EConfig_parse_failure_aborts e2eDefault [("repo.yaml", "no flat mapping")]
    (fun _ => none)
    { focusChanged := false, focusVal := "", skipChanged := false, skipVal := "",
      parallelChanged := false, parallelVal := "", registryChanged := true,
      registryVal := "repo.yaml" } (fun _ => [Event.dockerInit]) "no flat mapping" rfl rfl rfl

/-- Claim C7: for both commands that accept the override registry file
flag (pushImages and deleteImages), when the flag is set but no file
exists at that path, the invocation always fails with a file-not-found
resolution error: pushImages exits at its upfront existence check, and
deleteImages exits when registry resolution reports the override file
unreadable; in both cases no container-engine operation is performed and
no resolution completes. -/
theorem override_file_missing_fails_both (w : World) (fl : ImagesFlags) (ver : String)
    (hPlugin : fl.plugin = "e2e")
    (hSet : fl.e2eRegistryConfig ≠ "")
    (hMissing : w.fs.lookup fl.e2eRegistryConfig = none)
    (hKube : w.kubeconfigGet = Except.ok ())
    (hClient : w.sonobuoyClient = Except.ok ())
    (hVersion : w.clusterVersion = Except.ok ver) :
    ((pushImages w fl).exitedWithError = true ∧
     (pushImages w fl).trace.countP isEngineOp = 0 ∧
     Event.logError ("file does not exist or cannot be opened: " ++ fl.e2eRegistryConfig) ∈
       (pushImages w fl).trace) ∧
    ((deleteImages w fl).exitedWithError = true ∧
     (deleteImages w fl).trace.countP isEngineOp = 0 ∧
     Event.logError ("couldn't init upstream registry list: " ++
         ("couldn't init Registry List: " ++ "override file not found")) ∈
       (deleteImages w fl).trace) := by
  constructor
  · unfold pushImages
    simp [hPlugin, hMissing, isEngineOp, List.countP_cons]
  · unfold deleteImages GetImages NewRegistryList
    simp [hPlugin, hKube, hClient, hVersion, hSet, hMissing, isEngineOp, List.countP_cons]

def worldC7 : World :=
  { engine := engAllOk
    fs := []
    defaults := [("a", cfgA)]
    yamlParse := fun _ => none
    kubeconfigGet := Except.ok ()
    sonobuoyClient := Except.ok ()
    clusterVersion := Except.ok "v1.15.0"
    dockerInit := Except.ok ()
    envPassword := ""
    readPassword := Except.ok ""
    rangeOrder := fun l => l }

def flagsC7 : ImagesFlags :=
  { e2eRegistryConfig := "repo.yaml", plugin := "e2e", username := "" }

/-- Witness for claim C7 at a concrete input: an empty file system and the
override flag set to a path that does not exist. -/
theorem override_file_missing_fails_both_witness :
    ((pushImages worldC7 flagsC7).exitedWithError = true ∧
     (pushImages worldC7 flagsC7).trace.countP isEngineOp = 0 ∧
     Event.logError ("file does not exist or cannot be opened: " ++ flagsC7.e2eRegistryConfig) ∈
       (pushImages worldC7 flagsC7).trace) ∧
    ((deleteImages worldC7 flagsC7).exitedWithError = true ∧
     (deleteImages worldC7 flagsC7).trace.countP isEngineOp = 0 ∧
     Event.logError ("couldn't init upstream registry list: " ++
         ("couldn't init Registry List: " ++ "override file not found")) ∈
       (deleteImages worldC7 flagsC7).trace) :=
  override_file_missing_fails_both worldC7 flagsC7 "v1.15.0" rfl (by decide) rfl rfl rfl rfl

theorem printedLines_append (tr1 tr2 : List Event) :
    printedLines (tr1 ++ tr2) = printedLines tr1 ++ printedLines tr2 := by
  simp [printedLines]

theorem filterMap_printedLine_comp {α : Type} (f : α → String) (l : List α) :
    l.filterMap (printedLine ∘ fun a => Event.printLine (f a)) = l.map f := by
  induction l with
  | nil => rfl
  | cons a t ih => simp [printedLine, List.filterMap_cons, ih]

theorem printedLines_map_printLine (f : (String × Config) → String)
    (l : List (String × Config)) :
    printedLines (l.map (fun kv => Event.printLine (f kv))) = l.map f := by
  simp [printedLines, List.filterMap_map, filterMap_printedLine_comp]

/-- Claim C9: when the image-listing command is invoked with a non-empty
override file path whose file exists, the override file contents are never
read or applied: the run is identical for any two contents of the file,
the trace contains no file read, the registry list is built with the empty
override path, and the printed lines are exactly the built-in default
references tagged with the cluster version. -/
theorem listImages_ignores_override (w : World) (fl : ImagesFlags) (ver : String)
    (contents contents2 : String)
    (hPlugin : fl.plugin = "e2e")
    (hSet : 0 < fl.e2eRegistryConfig.length)
    (hKube : w.kubeconfigGet = Except.ok ())
    (hClient : w.sonobuoyClient = Except.ok ())
    (hVersion : w.clusterVersion = Except.ok ver) :
    listImages { w with fs := [(fl.e2eRegistryConfig, contents)] } fl =
      listImages { w with fs := [(fl.e2eRegistryConfig, contents2)] } fl ∧
    Event.buildRegistry "" ver ∈
      (listImages { w with fs := [(fl.e2eRegistryConfig, contents)] } fl).trace ∧
    (listImages { w with fs := [(fl.e2eRegistryConfig, contents)] } fl).trace.countP isReadFile = 0 ∧
    printedLines (listImages { w with fs := [(fl.e2eRegistryConfig, contents)] } fl).trace =
      (w.rangeOrder (w.defaults.map (fun kv => (kv.1, { kv.2 with tag := ver })))).map
        (fun kv => kv.2.GetE2EImage) := by
  unfold listImages listImagesBody NewRegistryList
  simp [hPlugin, hSet, hKube, hClient, hVersion, List.lookup, isReadFile,
    List.countP_cons, List.countP_map, printedLines_append, printedLines_map_printLine,
    printedLines, printedLine, List.countP_append, filterMap_printedLine_comp]

def worldC9 : World :=
  { engine := engAllOk
    fs := []
    defaults := [("a", cfgA), ("b", cfgB)]
    yamlParse := fun _ => none
    kubeconfigGet := Except.ok ()
    sonobuoyClient := Except.ok ()
    clusterVersion := Except.ok "v1.15.0"
    dockerInit := Except.ok ()
    envPassword := ""
    readPassword := Except.ok ""
    rangeOrder := fun l => l }

/-- Witness for claim C9 at a concrete input: two different override file
contents give identical runs, resolved from the defaults. -/
theorem listImages_ignores_override_witness :
    listImages { worldC9 with fs := [("repo.yaml", "contents one")] } flagsC7 =
      listImages { worldC9 with fs := [("repo.yaml", "contents two")] } flagsC7 ∧
    Event.buildRegistry "" "v1.15.0" ∈
      (listImages { worldC9 with fs := [("repo.yaml", "contents one")] } flagsC7).trace ∧
    (listImages { worldC9 with fs := [("repo.yaml", "contents one")] } flagsC7).trace.countP isReadFile = 0 ∧
    printedLines (listImages { worldC9 with fs := [("repo.yaml", "contents one")] } flagsC7).trace =
      (worldC9.rangeOrder (worldC9.defaults.map (fun kv => (kv.1, { kv.2 with tag := "v1.15.0" })))).map
        (fun kv => kv.2.GetE2EImage) :=
  listImages_ignores_override worldC9 flagsC7 "v1.15.0" "contents one" "contents two"
    rfl (by decide) rfl rfl rfl

end Sonobuoy
